import Mathlib

/-!
Shallow embedding of the website-design-analyzer service (`main.py`):
the style extractor, the screenshot capturer, the analysis request
builder (truncation, web-search tool configuration, citations) and the
`/analyze` request handler with its error mapping and teardown.

Python strings are modelled as Lean `String` (a sequence of code
points); Python `set` update followed by `list(...)` is modelled as an
insertion-ordered duplicate-free list; fallible external operations
(WebDriver calls, the generation service) are modelled as `Except`
values supplied by an environment record, and `try/except` blocks as
matches on those values.
-/

namespace WebSearchApi

/-- Python truthiness of an `Optional[bool]` field: `None` and `False`
are falsy. -/
def pyTruthyBool : Option Bool → Bool
  | some b => b
  | none => false

/-- Python truthiness of an `Optional[Dict[str, str]]` field: `None`
and the empty dict are falsy. -/
def pyTruthyDict : Option (List (String × String)) → Bool
  | some l => !l.isEmpty
  | none => false

/-- Python slicing `s[:n]` on a string: the first `n` characters. -/
def strSlice (s : String) (n : Nat) : String :=
  List.asString (s.toList.take n)

/-- A character of the class `[0-9a-fA-F]` from the hex-color regex. -/
def isHexChar (c : Char) : Bool :=
  (48 ≤ c.toNat && c.toNat ≤ 57) ||
  (97 ≤ c.toNat && c.toNat ≤ 102) ||
  (65 ≤ c.toNat && c.toNat ≤ 70)

/-- A character of the class `\s` (ASCII part) from the font-family
regex. -/
def pySpace (c : Char) : Bool :=
  c = ' ' || c = '\t' || c = '\n' || c = '\r' || c = '\x0b' || c = '\x0c'

/-- Greedy match of up to `k` characters of `[0-9a-fA-F]` at the head
of the list, as performed by the quantifier of the regex pattern. -/
def takeHexUpTo : Nat → List Char → List Char
  | 0, _ => []
  | _ + 1, [] => []
  | k + 1, c :: cs => if isHexChar c then c :: takeHexUpTo k cs else []

/-- One fuel-indexed scanning pass of
`re.findall(r'#([0-9a-fA-F]\x7b3,6\x7d', text)`: at each `#`, greedily
capture up to six hex digits; succeed when at least three were found,
then continue after the match (non-overlapping); otherwise advance one
character.  The fuel bounds recursion depth; `fuel = length` is enough
because every step consumes at least one character. -/
def findHexColorsAux : Nat → List Char → List String
  | 0, _ => []
  | _ + 1, [] => []
  | fuel + 1, c :: cs =>
    if c = '#' then
      let digits := takeHexUpTo 6 cs
      if 3 ≤ digits.length then
        digits.asString :: findHexColorsAux fuel (cs.drop digits.length)
      else
        findHexColorsAux fuel cs
    else
      findHexColorsAux fuel cs

/-- All captures of the hex-color regex over a style text. -/
def findHexColors (l : List Char) : List String :=
  findHexColorsAux l.length l

/-- The literal `font-family:` of the font regex. -/
def fontKey : List Char := "font-family:".toList

/-- One fuel-indexed scanning pass of
`re.findall(r'font-family:\s*([^;]+)', text)`: after the literal key,
`\s*` greedily skips whitespace and `[^;]+` captures up to the next
semicolon; when nothing but whitespace precedes the semicolon the
regex backtracks and captures the final whitespace character. -/
def findFontFamiliesAux : Nat → List Char → List String
  | 0, _ => []
  | _ + 1, [] => []
  | fuel + 1, c :: cs =>
    if List.isPrefixOf fontKey (c :: cs) then
      let rest := (c :: cs).drop fontKey.length
      let ws := rest.takeWhile pySpace
      let rest2 := rest.drop ws.length
      let content := rest2.takeWhile (fun ch => ch ≠ ';')
      if content.length ≠ 0 then
        content.asString :: findFontFamiliesAux fuel (rest2.drop content.length)
      else if ws.length ≠ 0 then
        (ws.drop (ws.length - 1)).asString :: findFontFamiliesAux fuel rest2
      else
        findFontFamiliesAux fuel cs
    else
      findFontFamiliesAux fuel cs

/-- All captures of the font-family regex over a style text. -/
def findFontFamilies (l : List Char) : List String :=
  findFontFamiliesAux l.length l

/-- Python `set.add` on an insertion-ordered duplicate-free list. -/
def setInsert (s : List String) (x : String) : List String :=
  if x ∈ s then s else s ++ [x]

/-- Python `set.update` with an iterable of captures. -/
def setUpdate (s : List String) (xs : List String) : List String :=
  xs.foldl setInsert s

/-- The `styles` dictionary built by `extract_styles`: `colors` and
`fonts` are sets (modelled as duplicate-free lists), `layout` maps
dimension names to pixel values, `components` stays empty. -/
structure StyleFacts where
  colors : List String
  fonts : List String
  layout : List (String × Int)
  components : List String
deriving DecidableEq, Repr

/-- The default value returned by the outer `except` branch of
`extract_styles`. -/
def emptyStyleFacts : StyleFacts :=
  { colors := [], fonts := [], layout := [], components := [] }

/-- Inputs of `extract_styles`: the `style.string` of each `<style>`
tag (`None` possible), the `style` attribute of each element that has
one, the result of `driver.find_element(By.TAG_NAME, "main")` together
with its rendered size, and an injected exception standing for any
error raised inside the outer `try` block. -/
structure ExtractEnv where
  styleBlocks : List (Option String)
  inlineStyles : List String
  findMain : Except String (Int × Int)
  fault : Option String
deriving Repr

/-- Scan one style source (raw stylesheet text or inline attribute) and
union the regex captures into the color and font sets, as one loop
iteration of `extract_styles` does. -/
def scanSource (st : StyleFacts) (s : String) : StyleFacts :=
  { st with
    colors := setUpdate st.colors (findHexColors s.toList),
    fonts := setUpdate st.fonts (findFontFamilies s.toList) }

/-- One iteration of the `<style>` tag loop: the `if style.string:`
guard skips a missing or empty raw text. -/
def scanStyleBlock (st : StyleFacts) (os : Option String) : StyleFacts :=
  match os with
  | some s => if s.isEmpty then st else scanSource st s
  | none => st

/-- The color/font sets after both scanning loops of `extract_styles`:
embedded style blocks first, then inline style attributes. -/
def scannedStyles (env : ExtractEnv) : StyleFacts :=
  env.inlineStyles.foldl scanSource
    (env.styleBlocks.foldl scanStyleBlock emptyStyleFacts)

/-- The layout step of `extract_styles`: the main-content lookup adds
`main_width`/`main_height` when it succeeds; its failure is swallowed
by the inner `try`, leaving the dictionary unchanged. -/
def withLayout (env : ExtractEnv) (st : StyleFacts) : StyleFacts :=
  match env.findMain with
  | Except.ok wh =>
    { st with
      layout := st.layout ++ [("main_width", wh.1), ("main_height", wh.2)] }
  | Except.error _ => st

/-- The body of the `try` block of `extract_styles`: scan embedded
style blocks, scan inline style attributes, then attempt the
main-content lookup. -/
def extractStylesBody (env : ExtractEnv) : Except String StyleFacts :=
  match env.fault with
  | some e => Except.error e
  | none => Except.ok (withLayout env (scannedStyles env))

/-- `extract_styles`: the whole body is wrapped in `try/except`; any
internal error degrades to the empty default dictionary. -/
def extract_styles (env : ExtractEnv) : StyleFacts :=
  match extractStylesBody env with
  | Except.ok st => st
  | Except.error _ => emptyStyleFacts

/-- One `{type, data}` entry of the screenshot list. -/
structure Screenshot where
  type : String
  data : String
deriving DecidableEq, Repr

/-- The WebDriver operations used by `take_screenshots`, each fallible:
`execute_script` for the scroll height, `set_window_size`,
`get_screenshot_as_base64` (whose result depends on the current window
size), and the main-content element lookup with its element-scoped
screenshot. -/
structure ShotDriver where
  scrollHeight : Except String Int
  setWindowSize : Int → Int → Except String Unit
  screenshot : Int × Int → Except String String
  findMainShot : Except String String

/-- `take_screenshots`: grow the window to the full scroll height and
capture `full_page`, restore 1920×1080 and capture `viewport`, then
attempt the optional `main_content` capture whose failure the inner
`try` swallows.  The outer `try/except` swallows every other failure
too, returning whatever entries were appended before it struck. -/
def take_screenshots (d : ShotDriver) : List Screenshot :=
  match d.scrollHeight with
  | Except.error _ => []
  | Except.ok total_height =>
  match d.setWindowSize 1920 total_height with
  | Except.error _ => []
  | Except.ok _ =>
  match d.screenshot (1920, total_height) with
  | Except.error _ => []
  | Except.ok shot1 =>
  let screenshots := [{ type := "full_page", data := shot1 : Screenshot }]
  match d.setWindowSize 1920 1080 with
  | Except.error _ => screenshots
  | Except.ok _ =>
  match d.screenshot (1920, 1080) with
  | Except.error _ => screenshots
  | Except.ok shot2 =>
  let screenshots := screenshots ++ [{ type := "viewport", data := shot2 }]
  match d.findMainShot with
  | Except.error _ => screenshots
  | Except.ok shot3 => screenshots ++ [{ type := "main_content", data := shot3 }]

/-- The request body of `POST /analyze` (`WebsiteRequest`): optional
fields keep their `None` possibility, and `user_location` is a string
dictionary modelled as an association list. -/
structure WebsiteRequest where
  url : String
  analysis_type : Option String := some "general"
  enable_web_search : Option Bool := some false
  search_context_size : Option String := some "medium"
  user_location : Option (List (String × String)) := none

/-- The membership test
`request.search_context_size in ["low", "medium", "high"]`
(`None` is a member of no list). -/
def scsAllowed : Option String → Bool
  | some s => s = "low" || s = "medium" || s = "high"
  | none => false

/-- The `location_data` dictionary: it starts from
`("type", "approximate")` and appends each of `country`, `city`,
`region`, `timezone` that is present in the caller's dictionary. -/
def buildLocationData (ul : List (String × String)) : List (String × String) :=
  let location_data := [("type", "approximate")]
  let location_data :=
    match ul.lookup "country" with
    | some v => location_data ++ [("country", v)]
    | none => location_data
  let location_data :=
    match ul.lookup "city" with
    | some v => location_data ++ [("city", v)]
    | none => location_data
  let location_data :=
    match ul.lookup "region" with
    | some v => location_data ++ [("region", v)]
    | none => location_data
  match ul.lookup "timezone" with
  | some v => location_data ++ [("timezone", v)]
  | none => location_data

/-- The `web_search_tool` dictionary: fixed `type`, plus the optional
keys `search_context_size` and `user_location` (absent keys are
`none`). -/
structure WebSearchTool where
  type : String
  search_context_size : Option String
  user_location : Option (List (String × String))
deriving DecidableEq, Repr

/-- Construction of `web_search_tool` in the augmented branch of
`analyze_website`: the context size is forwarded only when it passes
the membership test, and `user_location` is attached only when the
caller's dictionary is truthy. -/
def buildWebSearchTool (req : WebsiteRequest) : WebSearchTool :=
  let web_search_tool : WebSearchTool :=
    { type := "web_search_preview", search_context_size := none, user_location := none }
  let web_search_tool :=
    if scsAllowed req.search_context_size then
      { web_search_tool with search_context_size := req.search_context_size }
    else web_search_tool
  if pyTruthyDict req.user_location then
    { web_search_tool with
      user_location := some (buildLocationData (req.user_location.getD [])) }
  else web_search_tool

/-- One citation entry of the result. -/
structure Citation where
  url : String
  title : String
  start_index : Int
  end_index : Int
deriving DecidableEq, Repr

/-- One annotation attached to a content item of the generation
response. -/
structure AnnotationItem where
  type : String
  url : String
  title : String
  start_index : Int
  end_index : Int
deriving DecidableEq, Repr

/-- One item of `response.message.content`; a missing `annotations`
attribute is `none`. -/
structure ContentItem where
  annotations : Option (List AnnotationItem)
deriving DecidableEq, Repr

/-- The `response.message` object; a missing `content` attribute is
`none`. -/
structure RespMessage where
  content : Option (List ContentItem)
deriving DecidableEq, Repr

/-- The Responses-API reply: its `output_text` and the optional
`message` attribute traversed for citations. -/
structure Response where
  output_text : String
  message : Option RespMessage
deriving DecidableEq, Repr

/-- The citation dictionary built from a `url_citation` annotation. -/
def citationOf (a : AnnotationItem) : Citation :=
  { url := a.url, title := a.title,
    start_index := a.start_index, end_index := a.end_index }

/-- The citations contributed by one content item: the annotations of
type `url_citation`, in order. -/
def citationsOfContent (c : ContentItem) : List Citation :=
  match c.annotations with
  | none => []
  | some anns =>
    anns.filterMap (fun a =>
      if a.type = "url_citation" then some (citationOf a) else none)

/-- The citation-collection loops of the augmented branch: iterate over
`response.message.content` (when both attributes exist) appending each
`url_citation` annotation. -/
def collectCitations (r : Response) : List Citation :=
  match r.message with
  | none => []
  | some m =>
    match m.content with
    | none => []
    | some contents => contents.foldl (fun acc c => acc ++ citationsOfContent c) []

/-- The generation response carries at least one URL-citation
annotation reachable through `message.content`. -/
def hasUrlCitation (r : Response) : Prop :=
  ∃ m, r.message = some m ∧ ∃ cs, m.content = some cs ∧
    ∃ c ∈ cs, ∃ anns, c.annotations = some anns ∧
      ∃ a ∈ anns, a.type = "url_citation"

/-- One choice of the chat-completions reply, keeping only
`choices[i].message.content`. -/
structure ChatChoice where
  message_content : String
deriving DecidableEq, Repr

/-- The chat-completions reply of the standard branch. -/
structure ChatResponse where
  choices : List ChatChoice
deriving DecidableEq, Repr

/-- Serialization of a string list as `json.dumps` renders it. -/
def jsonStringList (l : List String) : String :=
  "[" ++ String.intercalate ", " (l.map (fun s => "\"" ++ s ++ "\"")) ++ "]"

/-- Serialization of the layout dictionary as `json.dumps` renders
it. -/
def jsonLayout (l : List (String × Int)) : String :=
  "\x7b" ++
    String.intercalate ", " (l.map (fun kv => "\"" ++ kv.1 ++ "\": " ++ toString kv.2)) ++
  "\x7d"

/-- `json.dumps(styles)`: the styles dictionary in insertion order. -/
def jsonOfStyles (st : StyleFacts) : String :=
  "\x7b\"colors\": " ++ jsonStringList st.colors ++
  ", \"fonts\": " ++ jsonStringList st.fonts ++
  ", \"layout\": " ++ jsonLayout st.layout ++
  ", \"components\": " ++ jsonStringList st.components ++ "\x7d"

/-- One message of the chat-completions request. -/
structure ChatMessage where
  role : String
  content : String
deriving DecidableEq, Repr

/-- The system prompt of the standard branch. -/
def stdSystemContent : String :=
  "You are a business analyst and web design expert. Analyze the following website content, styles, and provide insights about the company and its design approach."

/-- The user prompt of the standard branch, up to the interpolated
website content. -/
def stdUserPre : String :=
  "\n                    Please analyze this website and provide:\n                    1. Company insights\n                    2. Design analysis including:\n                       - Color scheme analysis\n                       - Typography analysis\n                       - Layout analysis\n                       - Design patterns used\n                    3. A design prompt that could be used to recreate a similar design\n                    \n                    Website content: "

/-- The user prompt of the standard branch, between the website content
and the serialized styles. -/
def stdUserMid : String := "\n                    Styles: "

/-- The trailing text of the standard-branch user prompt. -/
def stdUserPost : String := "\n                    "

/-- The messages of the standard chat-completions request: the page
text enters through the slice `text_content[:4000]`. -/
def standardMessages (text_content stylesJson : String) : List ChatMessage :=
  [ { role := "system", content := stdSystemContent },
    { role := "user",
      content := stdUserPre ++ strSlice text_content 4000 ++ stdUserMid ++
        stylesJson ++ stdUserPost } ]

/-- The augmented-branch input, up to the interpolated url. -/
def augPre : String := "\n                Analyze this website: "

/-- The augmented-branch input between the url and the website
content. -/
def augMid : String :=
  "\n                \n                Please provide:\n                1. Company insights with up-to-date information about the company\n                2. Design analysis including:\n                   - Color scheme analysis\n                   - Typography analysis\n                   - Layout analysis\n                   - Design patterns used\n                3. A design prompt that could be used to recreate a similar design\n                \n                Website content: "

/-- The augmented-branch input between the website content and the
serialized styles. -/
def augMid2 : String := "\n                Styles: "

/-- The trailing text of the augmented-branch input. -/
def augPost : String := "\n                "

/-- The single input string of the augmented Responses-API request:
the page text enters through the slice `text_content[:4000]`. -/
def augmentedInput (url text_content stylesJson : String) : String :=
  augPre ++ url ++ augMid ++ strSlice text_content 4000 ++ augMid2 ++
    stylesJson ++ augPost

/-- The exception taxonomy of the handler's `except` clauses:
`TimeoutException`, other `WebDriverException`s, and everything
else. -/
inductive StepErr where
  | timeoutExc : StepErr
  | webdriverExc : String → StepErr
  | otherExc : String → StepErr
deriving DecidableEq, Repr

/-- The final response dictionary of `analyze_website`; the optional
`citations` key is `none` when absent. -/
structure AnalysisResult where
  url : String
  analysis : String
  styles : StyleFacts
  screenshots : List Screenshot
  timestamp : String
  citations : Option (List Citation)
deriving DecidableEq, Repr

/-- The external effects one `/analyze` request observes, in program
order: `setup_selenium` (spawning the driver), `driver.get`, the
readiness wait, the extracted page text, the inputs of
`extract_styles`, the driver operations of `take_screenshots`, the two
generation calls (only one is consumed per request), the outcome of
`driver.quit`, and the timestamp taken at the end. -/
structure AnalyzeEnv where
  setup_selenium : Except StepErr Unit
  navigate : Except StepErr Unit
  waitBody : Except StepErr Unit
  text_content : String
  extractEnv : ExtractEnv
  shotDriver : ShotDriver
  responsesCreate : Except StepErr Response
  chatCreate : Except StepErr ChatResponse
  quit : Except StepErr Unit
  timestamp : String

/-- Whether an `Except` value is a success. -/
def okBool {ε α : Type} : Except ε α → Bool
  | Except.ok _ => true
  | Except.error _ => false

/-- The body of the handler's `try` block: driver setup, navigation,
readiness wait, extraction, screenshots, then one of the two
generation branches; the standard branch raises `IndexError` on an
empty `choices` list, and the `citations` key is attached only when
web search was requested and citations are non-empty. -/
def analyzeBody (req : WebsiteRequest) (env : AnalyzeEnv) :
    Except StepErr AnalysisResult :=
  match env.setup_selenium with
  | Except.error e => Except.error e
  | Except.ok _ =>
  match env.navigate with
  | Except.error e => Except.error e
  | Except.ok _ =>
  match env.waitBody with
  | Except.error e => Except.error e
  | Except.ok _ =>
    let text_content := env.text_content
    let styles := extract_styles env.extractEnv
    let screenshots := take_screenshots env.shotDriver
    let branch : Except StepErr (String × List Citation) :=
      if pyTruthyBool req.enable_web_search then
        let _web_search_tool := buildWebSearchTool req
        let _input := augmentedInput req.url text_content (jsonOfStyles styles)
        match env.responsesCreate with
        | Except.error e => Except.error e
        | Except.ok response =>
          Except.ok (response.output_text, collectCitations response)
      else
        let _messages := standardMessages text_content (jsonOfStyles styles)
        match env.chatCreate with
        | Except.error e => Except.error e
        | Except.ok response =>
          match response.choices with
          | [] => Except.error (StepErr.otherExc "list index out of range")
          | choice :: _ => Except.ok (choice.message_content, [])
    match branch with
    | Except.error e => Except.error e
    | Except.ok pair =>
      Except.ok
        { url := req.url
          analysis := pair.1
          styles := styles
          screenshots := screenshots
          timestamp := env.timestamp
          citations :=
            if pyTruthyBool req.enable_web_search && !pair.2.isEmpty then
              some pair.2
            else none }

/-- The `except` clauses of the handler: `TimeoutException` maps to
HTTP 408 with the fixed detail, `WebDriverException` to HTTP 400 with
the underlying message, anything else to HTTP 500 with the raw
message. -/
def mapError : Except StepErr AnalysisResult → Except (Nat × String) AnalysisResult
  | Except.ok r => Except.ok r
  | Except.error StepErr.timeoutExc =>
    Except.error (408, "Timeout while loading website")
  | Except.error (StepErr.webdriverExc m) =>
    Except.error (400, "Failed to access website: " ++ m)
  | Except.error (StepErr.otherExc m) => Except.error (500, m)

/-- The `finally` block: when the driver was created (`driver` is not
`None`), `driver.quit()` runs exactly once and its own failure is
swallowed by the nested `try/except: pass`; otherwise it never
runs. -/
def quitCount (env : AnalyzeEnv) : Nat :=
  if okBool env.setup_selenium then
    match env.quit with
    | Except.ok _ => 1
    | Except.error _ => 1
  else 0

/-- The whole `/analyze` handler: the `try` body, the error mapping of
the `except` clauses, and the teardown of the `finally` block.  The
second component counts the `driver.quit()` invocations. -/
def analyze_website (req : WebsiteRequest) (env : AnalyzeEnv) :
    Except (Nat × String) AnalysisResult × Nat :=
  (mapError (analyzeBody req env), quitCount env)

/-- Shape of an emitted color capture: three to six characters of the
class `[0-9a-fA-F]`. -/
def colorTokenOk (s : String) : Prop :=
  3 ≤ s.length ∧ s.length ≤ 6 ∧ ∀ c ∈ s.toList, isHexChar c = true

/-- Page text of 4001 characters, exceeding the 4000-character
budget. -/
def longText : String := List.asString (List.replicate 4001 'a')

/-- A page whose only style block holds a four-hex-digit color
token. -/
def envC2 : ExtractEnv :=
  { styleBlocks := [some "#abcd;"], inlineStyles := [],
    findMain := Except.error "no main element", fault := none }

/-- An extraction run with an injected internal error. -/
def envC3 : ExtractEnv :=
  { styleBlocks := [some "#fff;"], inlineStyles := [],
    findMain := Except.error "no main element", fault := some "boom" }

/-- A page with no style blocks, no inline styles and no main-content
region. -/
def envC4 : ExtractEnv :=
  { styleBlocks := [], inlineStyles := [],
    findMain := Except.error "no main element", fault := none }

/-- A healthy driver over a page with no main-content region. -/
def shotC4 : ShotDriver :=
  { scrollHeight := Except.ok 2400,
    setWindowSize := fun _ _ => Except.ok (),
    screenshot := fun _ => Except.ok "img",
    findMainShot := Except.error "no main element" }

/-- A live driver whose viewport capture cannot be read: every
operation succeeds except the screenshot at size 1920×1080. -/
def shotC5 : ShotDriver :=
  { scrollHeight := Except.ok 2400,
    setWindowSize := fun _ _ => Except.ok (),
    screenshot := fun sz =>
      if sz = (1920, 1080) then Except.error "screenshot read failed"
      else Except.ok "fullimg",
    findMainShot := Except.ok "mainimg" }

/-- A request for the failing-viewport run. -/
def reqC5 : WebsiteRequest := { url := "https://example.com/" }

/-- A full pipeline run around `shotC5`: every step outside the
screenshot capturer succeeds. -/
def envC5 : AnalyzeEnv :=
  { setup_selenium := Except.ok ()
    navigate := Except.ok ()
    waitBody := Except.ok ()
    text_content := "hello"
    extractEnv :=
      { styleBlocks := [], inlineStyles := [],
        findMain := Except.error "no main element", fault := none }
    shotDriver := shotC5
    responsesCreate := Except.error (StepErr.otherExc "unused")
    chatCreate := Except.ok { choices := [{ message_content := "Great site" }] }
    quit := Except.ok ()
    timestamp := "2026-10-12T00:00:00" }

/-- The response the pipeline produces around `shotC5`: a success
whose screenshot list lacks the viewport entry. -/
def resC5 : AnalysisResult :=
  { url := "https://example.com/"
    analysis := "Great site"
    styles := emptyStyleFacts
    screenshots := [{ type := "full_page", data := "fullimg" }]
    timestamp := "2026-10-12T00:00:00"
    citations := none }

/-- A driver whose mandatory captures all succeed. -/
def shotC5w : ShotDriver :=
  { scrollHeight := Except.ok 3000,
    setWindowSize := fun _ _ => Except.ok (),
    screenshot := fun _ => Except.ok "png",
    findMainShot := Except.error "no main element" }

/-- A request with an allowed context size. -/
def reqC7 : WebsiteRequest := { url := "u", search_context_size := some "high" }

/-- A standard-mode request (web search disabled). -/
def reqC8 : WebsiteRequest := { url := "u", enable_web_search := some false }

/-- A healthy standard-mode pipeline run. -/
def envC8 : AnalyzeEnv :=
  { setup_selenium := Except.ok ()
    navigate := Except.ok ()
    waitBody := Except.ok ()
    text_content := "welcome"
    extractEnv :=
      { styleBlocks := [], inlineStyles := [],
        findMain := Except.error "no main element", fault := none }
    shotDriver :=
      { scrollHeight := Except.ok 1500,
        setWindowSize := fun _ _ => Except.ok (),
        screenshot := fun _ => Except.ok "png",
        findMainShot := Except.error "no main element" }
    responsesCreate := Except.error (StepErr.otherExc "unused")
    chatCreate := Except.ok { choices := [{ message_content := "analysis text" }] }
    quit := Except.ok ()
    timestamp := "T" }

/-- The response of the healthy standard-mode run: no `citations`
key. -/
def resC8 : AnalysisResult :=
  { url := "u"
    analysis := "analysis text"
    styles := emptyStyleFacts
    screenshots :=
      [{ type := "full_page", data := "png" }, { type := "viewport", data := "png" }]
    timestamp := "T"
    citations := none }

/-- A request for the error-path runs. -/
def reqC9 : WebsiteRequest := { url := "https://example.com/" }

/-- A run where `setup_selenium` itself raises a `WebDriverException`:
the driver is never created. -/
def envC9fail : AnalyzeEnv :=
  { setup_selenium := Except.error (StepErr.webdriverExc "chrome not reachable")
    navigate := Except.ok ()
    waitBody := Except.ok ()
    text_content := ""
    extractEnv :=
      { styleBlocks := [], inlineStyles := [],
        findMain := Except.error "no main element", fault := none }
    shotDriver := shotC5w
    responsesCreate := Except.error (StepErr.otherExc "unused")
    chatCreate := Except.error (StepErr.otherExc "unused")
    quit := Except.ok ()
    timestamp := "T" }

/-- A run where the readiness wait times out after the driver was
created. -/
def envC9 : AnalyzeEnv :=
  { setup_selenium := Except.ok ()
    navigate := Except.ok ()
    waitBody := Except.error StepErr.timeoutExc
    text_content := ""
    extractEnv :=
      { styleBlocks := [], inlineStyles := [],
        findMain := Except.error "no main element", fault := none }
    shotDriver := shotC5w
    responsesCreate := Except.error (StepErr.otherExc "unused")
    chatCreate := Except.error (StepErr.otherExc "unused")
    quit := Except.error (StepErr.webdriverExc "quit failed")
    timestamp := "T" }

/-- A request with a one-field `user_location` dictionary. -/
def reqC10 : WebsiteRequest :=
  { url := "u", user_location := some [("city", "Toronto")] }

/-- A request with an empty `user_location` dictionary. -/
def reqC10b : WebsiteRequest := { url := "u", user_location := some [] }

/-- A predicate preserved by every step of a left fold holds of the
fold. -/
theorem foldl_preserve {α β : Type} {P : α → Prop} {f : α → β → α}
    (hf : ∀ a b, P a → P (f a b)) :
    ∀ (l : List β) (a : α), P a → P (l.foldl f a) := by
  intro l
  induction l with
  | nil => intro a ha; exact ha
  | cons b l ih => intro a ha; exact ih (f a b) (hf a b ha)

/-- `setInsert` keeps the list duplicate-free. -/
theorem setInsert_nodup (s : List String) (x : String) (h : s.Nodup) :
    (setInsert s x).Nodup := by
  unfold setInsert
  split
  · exact h
  · next hx =>
    simp [List.nodup_append, h, List.disjoint_singleton, hx]

/-- `setUpdate` keeps the list duplicate-free. -/
theorem setUpdate_nodup (s : List String) (xs : List String) (h : s.Nodup) :
    (setUpdate s xs).Nodup :=
  foldl_preserve setInsert_nodup xs s h

/-- Membership after `setInsert` comes from the set or the new
element. -/
theorem mem_setInsert {x y : String} {s : List String}
    (h : x ∈ setInsert s y) : x ∈ s ∨ x = y := by
  unfold setInsert at h
  split at h
  · exact Or.inl h
  · rcases List.mem_append.mp h with h1 | h2
    · exact Or.inl h1
    · exact Or.inr (List.mem_singleton.mp h2)

/-- Membership after `setUpdate` comes from the set or the added
captures. -/
theorem mem_setUpdate {x : String} :
    ∀ (xs s : List String), x ∈ setUpdate s xs → x ∈ s ∨ x ∈ xs := by
  intro xs
  induction xs with
  | nil => intro s h; exact Or.inl h
  | cons y ys ih =>
    intro s h
    rcases ih (setInsert s y) h with h1 | h2
    · rcases mem_setInsert h1 with h3 | h4
      · exact Or.inl h3
      · exact Or.inr (by simp [h4])
    · exact Or.inr (List.mem_cons_of_mem y h2)

/-- The greedy hex take captures at most `k` characters. -/
theorem takeHexUpTo_length : ∀ (k : Nat) (l : List Char),
    (takeHexUpTo k l).length ≤ k := by
  intro k
  induction k with
  | zero => intro l; simp [takeHexUpTo]
  | succ k ih =>
    intro l
    cases l with
    | nil => simp [takeHexUpTo]
    | cons c cs =>
      unfold takeHexUpTo
      split
      · simpa using ih cs
      · simp

/-- Every character of the greedy hex take is a hex digit. -/
theorem takeHexUpTo_hex : ∀ (k : Nat) (l : List Char) (c : Char),
    c ∈ takeHexUpTo k l → isHexChar c = true := by
  intro k
  induction k with
  | zero => intro l c h; simp [takeHexUpTo] at h
  | succ k ih =>
    intro l c h
    cases l with
    | nil => simp [takeHexUpTo] at h
    | cons d cs =>
      unfold takeHexUpTo at h
      split at h
      · next hd =>
        rcases List.mem_cons.mp h with h1 | h2
        · exact h1 ▸ hd
        · exact ih cs c h2
      · simp at h

/-- Every capture of the hex-color scanner is three to six hex
digits. -/
theorem findHexColorsAux_sound : ∀ (fuel : Nat) (l : List Char) (s : String),
    s ∈ findHexColorsAux fuel l → colorTokenOk s := by
  intro fuel
  induction fuel with
  | zero => intro l s h; simp [findHexColorsAux] at h
  | succ fuel ih =>
    intro l s h
    cases l with
    | nil => simp [findHexColorsAux] at h
    | cons c cs =>
      unfold findHexColorsAux at h
      by_cases hc : c = '#'
      · rw [if_pos hc] at h
        by_cases hlen : 3 ≤ (takeHexUpTo 6 cs).length
        · rw [if_pos hlen] at h
          rcases List.mem_cons.mp h with h1 | h2
          · refine h1 ▸ ⟨?_, ?_, ?_⟩
            · simpa [List.asString] using hlen
            · simpa [List.asString] using takeHexUpTo_length 6 cs
            · intro ch hch
              exact takeHexUpTo_hex 6 cs ch (by simpa [List.asString] using hch)
          · exact ih _ s h2
        · rw [if_neg hlen] at h
          exact ih cs s h
      · rw [if_neg hc] at h
        exact ih cs s h

/-- Every capture of the hex-color regex is three to six hex
digits. -/
theorem findHexColors_sound (l : List Char) (s : String)
    (h : s ∈ findHexColors l) : colorTokenOk s :=
  findHexColorsAux_sound l.length l s h

/-- Without an injected fault, `extract_styles` is the scan followed
by the layout step. -/
theorem extract_styles_eq (env : ExtractEnv) (h : env.fault = none) :
    extract_styles env = withLayout env (scannedStyles env) := by
  unfold extract_styles extractStylesBody
  rw [h]

/-- With an injected fault, `extract_styles` degrades to the
default. -/
theorem extract_styles_fault (env : ExtractEnv) (e : String)
    (h : env.fault = some e) : extract_styles env = emptyStyleFacts := by
  unfold extract_styles extractStylesBody
  rw [h]

/-- The layout step never touches the color set. -/
theorem withLayout_colors (env : ExtractEnv) (st : StyleFacts) :
    (withLayout env st).colors = st.colors := by
  unfold withLayout
  split <;> rfl

/-- The layout step never touches the font set. -/
theorem withLayout_fonts (env : ExtractEnv) (st : StyleFacts) :
    (withLayout env st).fonts = st.fonts := by
  unfold withLayout
  split <;> rfl

/-- The scanning loops never touch the layout dictionary. -/
theorem scanSource_layout (st : StyleFacts) (s : String) :
    (scanSource st s).layout = st.layout := rfl

/-- The style-block loop never touches the layout dictionary. -/
theorem scanStyleBlock_layout (st : StyleFacts) (os : Option String) :
    (scanStyleBlock st os).layout = st.layout := by
  unfold scanStyleBlock
  cases os with
  | none => rfl
  | some s =>
    by_cases hs : s.isEmpty <;> simp [hs, scanSource_layout]

/-- The scan leaves the layout dictionary empty. -/
theorem scannedStyles_layout (env : ExtractEnv) :
    (scannedStyles env).layout = [] := by
  unfold scannedStyles
  refine foldl_preserve (P := fun (st : StyleFacts) => st.layout = []) ?_ env.inlineStyles _ ?_
  · intro a b ha; rw [scanSource_layout]; exact ha
  · refine foldl_preserve (P := fun (st : StyleFacts) => st.layout = []) ?_ env.styleBlocks _ rfl
    intro a b ha; rw [scanStyleBlock_layout]; exact ha

/-- The scan produces duplicate-free color and font sets. -/
theorem scannedStyles_nodup (env : ExtractEnv) :
    (scannedStyles env).colors.Nodup ∧ (scannedStyles env).fonts.Nodup := by
  unfold scannedStyles
  refine foldl_preserve
    (P := fun (st : StyleFacts) => st.colors.Nodup ∧ st.fonts.Nodup) ?_ env.inlineStyles _ ?_
  · intro a b ⟨h1, h2⟩
    exact ⟨setUpdate_nodup _ _ h1, setUpdate_nodup _ _ h2⟩
  · refine foldl_preserve
      (P := fun (st : StyleFacts) => st.colors.Nodup ∧ st.fonts.Nodup) ?_ env.styleBlocks _
      ⟨List.nodup_nil, List.nodup_nil⟩
    intro a b ⟨h1, h2⟩
    unfold scanStyleBlock
    cases b with
    | none => exact ⟨h1, h2⟩
    | some s =>
      by_cases hs : s.isEmpty <;>
        simp [hs, scanSource, setUpdate_nodup, h1, h2]

/-- Every color the scan emits is a capture shape of the hex
regex. -/
theorem scannedStyles_colors_sound (env : ExtractEnv) :
    ∀ x ∈ (scannedStyles env).colors, colorTokenOk x := by
  unfold scannedStyles
  refine foldl_preserve
    (P := fun (st : StyleFacts) => ∀ x ∈ st.colors, colorTokenOk x) ?_ env.inlineStyles _ ?_
  · intro a b ha x hx
    rcases mem_setUpdate _ _ hx with h1 | h2
    · exact ha x h1
    · exact findHexColors_sound _ x h2
  · refine foldl_preserve
      (P := fun (st : StyleFacts) => ∀ x ∈ st.colors, colorTokenOk x) ?_ env.styleBlocks _
      (by intro x hx; simp [emptyStyleFacts] at hx)
    intro a b ha x hx
    cases b with
    | none => exact ha x hx
    | some s =>
      simp only [scanStyleBlock] at hx
      by_cases hs : s.isEmpty
      · rw [if_pos hs] at hx; exact ha x hx
      · rw [if_neg hs] at hx
        rcases mem_setUpdate _ _ hx with h1 | h2
        · exact ha x h1
        · exact findHexColors_sound _ x h2

/-- Claim C1: for every input page, the `colors` and `fonts` sequences
produced by `extract_styles` contain no duplicate entries, however
often the same hex color or font-family string recurs across style
blocks and inline style attributes. -/
theorem extract_styles_nodup (env : ExtractEnv) :
    (extract_styles env).colors.Nodup ∧ (extract_styles env).fonts.Nodup := by
  cases hf : env.fault with
  | some e =>
    rw [extract_styles_fault env e hf]
    exact ⟨List.nodup_nil, List.nodup_nil⟩
  | none =>
    rw [extract_styles_eq env hf, withLayout_colors, withLayout_fonts]
    exact scannedStyles_nodup env

/-- Claim C2 (counterexample): the style text `#abcd;` makes
`extract_styles` emit the token `abcd`, which has four hex digits, not
exactly three or six. -/
theorem hex_capture_four_digit_token :
    (extract_styles envC2).colors = ["abcd"] ∧
    ¬ (("abcd" : String).length = 3 ∨ ("abcd" : String).length = 6) := by
  exact ⟨by decide, by decide⟩

/-- Claim C2 (amended): a token is added to `colors` only when it is
the capture of a `#` followed by three to six hex digits — the
quantifier of the regex admits four- and five-digit tokens as well,
captured greedily up to six. -/
theorem extract_styles_color_token_shape (env : ExtractEnv) :
    ∀ c ∈ (extract_styles env).colors, colorTokenOk c := by
  cases hf : env.fault with
  | some e =>
    rw [extract_styles_fault env e hf]
    intro c hc
    simp [emptyStyleFacts] at hc
  | none =>
    rw [extract_styles_eq env hf, withLayout_colors]
    exact scannedStyles_colors_sound env

/-- Claim C2 (witness): the four-digit token of `envC2` satisfies the
amended capture shape. -/
theorem extract_styles_color_token_shape_witness :
    colorTokenOk "abcd" :=
  extract_styles_color_token_shape envC2 "abcd" (by decide)

/-- Claim C3: `extract_styles` never fails — an internal error during
extraction degrades to the empty default `StyleFacts`, and a failed
main-content lookup leaves `layout` empty without raising past the
extractor boundary. -/
theorem extract_styles_total_default (env : ExtractEnv) :
    (∀ e, env.fault = some e → extract_styles env = emptyStyleFacts) ∧
    (∀ msg, env.findMain = Except.error msg → (extract_styles env).layout = []) := by
  constructor
  · intro e he; exact extract_styles_fault env e he
  · intro msg hm
    cases hf : env.fault with
    | some e => rw [extract_styles_fault env e hf]; rfl
    | none =>
      rw [extract_styles_eq env hf]
      unfold withLayout
      rw [hm]
      exact scannedStyles_layout env

/-- Claim C3 (witness): on `envC3`, where a fault is injected and the
main lookup fails, the extractor returns the default and an empty
layout. -/
theorem extract_styles_total_default_witness :
    extract_styles envC3 = emptyStyleFacts ∧ (extract_styles envC3).layout = [] :=
  ⟨(extract_styles_total_default envC3).1 "boom" rfl,
   (extract_styles_total_default envC3).2 "no main element" rfl⟩

/-- Claim C4: a page with no style blocks, no inline styles and no
main-content region yields the empty default `StyleFacts` and a
screenshot set of exactly the `full_page` and `viewport` entries, with
no error raised. -/
theorem empty_page_styles_and_screenshots (env : ExtractEnv) (d : ShotDriver)
    (hgt : Int) (d1 d2 : String)
    (hb : env.styleBlocks = []) (hi : env.inlineStyles = [])
    (hfa : env.fault = none) (hm : okBool env.findMain = false)
    (hsh : d.scrollHeight = Except.ok hgt)
    (hw1 : d.setWindowSize 1920 hgt = Except.ok ())
    (hs1 : d.screenshot (1920, hgt) = Except.ok d1)
    (hw2 : d.setWindowSize 1920 1080 = Except.ok ())
    (hs2 : d.screenshot (1920, 1080) = Except.ok d2)
    (hmc : okBool d.findMainShot = false) :
    extract_styles env = emptyStyleFacts ∧
    take_screenshots d =
      [{ type := "full_page", data := d1 }, { type := "viewport", data := d2 }] := by
  constructor
  · rw [extract_styles_eq env hfa]
    unfold withLayout scannedStyles
    rw [hb, hi]
    cases hfm : env.findMain with
    | ok wh => rw [hfm] at hm; simp [okBool] at hm
    | error e => simp
  · simp only [take_screenshots, hsh, hw1, hs1, hw2, hs2]
    cases hfs : d.findMainShot with
    | ok s => rw [hfs] at hmc; simp [okBool] at hmc
    | error e => simp

/-- Claim C4 (witness): the empty page `envC4` with driver `shotC4`
yields the default styles and exactly the two mandatory shots. -/
theorem empty_page_styles_and_screenshots_witness :
    extract_styles envC4 = emptyStyleFacts ∧
    take_screenshots shotC4 =
      [{ type := "full_page", data := "img" }, { type := "viewport", data := "img" }] :=
  empty_page_styles_and_screenshots envC4 shotC4 2400 "img" "img"
    rfl rfl rfl rfl rfl rfl rfl rfl rfl rfl

/-- Claim C5 (counterexample): with driver `shotC5` — alive, all
operations fine except reading the viewport screenshot — the capturer
swallows that failure locally and returns a set with no `viewport`
entry, and the surrounding pipeline still succeeds instead of handling
the failure in its outer error handling. -/
theorem viewport_failure_swallowed :
    take_screenshots shotC5 = [{ type := "full_page", data := "fullimg" }] ∧
    (∀ s ∈ take_screenshots shotC5, s.type ≠ "viewport") ∧
    (analyze_website reqC5 envC5).1 = Except.ok resC5 := by
  refine ⟨by decide, by decide, rfl⟩

/-- Claim C5 (amended): every capture failure inside
`take_screenshots` is swallowed locally — the capturer always returns
an in-order prefix of the three tagged entries, dropping the failed
capture and its successors, and it contains both mandatory entries
whenever the full-page and viewport captures can be read. -/
theorem take_screenshots_swallows_failures (d : ShotDriver) :
    ((take_screenshots d).map Screenshot.type ∈
      [([] : List String), ["full_page"], ["full_page", "viewport"],
       ["full_page", "viewport", "main_content"]]) ∧
    (∀ (hgt : Int) (s1 s2 : String),
      d.scrollHeight = Except.ok hgt →
      d.setWindowSize 1920 hgt = Except.ok () →
      d.screenshot (1920, hgt) = Except.ok s1 →
      d.setWindowSize 1920 1080 = Except.ok () →
      d.screenshot (1920, 1080) = Except.ok s2 →
      ∃ tl, take_screenshots d =
        { type := "full_page", data := s1 } ::
          { type := "viewport", data := s2 } :: tl) := by
  constructor
  · cases hsh : d.scrollHeight with
    | error e => simp [take_screenshots, hsh]
    | ok th =>
      cases hw1 : d.setWindowSize 1920 th with
      | error e => simp [take_screenshots, hsh, hw1]
      | ok u1 =>
        cases hs1 : d.screenshot (1920, th) with
        | error e => simp [take_screenshots, hsh, hw1, hs1]
        | ok s1 =>
          cases hw2 : d.setWindowSize 1920 1080 with
          | error e => simp [take_screenshots, hsh, hw1, hs1, hw2]
          | ok u2 =>
            cases hs2 : d.screenshot (1920, 1080) with
            | error e => simp [take_screenshots, hsh, hw1, hs1, hw2, hs2]
            | ok s2 =>
              cases hmc : d.findMainShot with
              | error e => simp [take_screenshots, hsh, hw1, hs1, hw2, hs2, hmc]
              | ok s3 => simp [take_screenshots, hsh, hw1, hs1, hw2, hs2, hmc]
  · intro hgt s1 s2 hsh hw1 hs1 hw2 hs2
    simp only [take_screenshots, hsh, hw1, hs1, hw2, hs2]
    cases hmc : d.findMainShot with
    | error e => exact ⟨[], rfl⟩
    | ok s3 => exact ⟨[{ type := "main_content", data := s3 }], rfl⟩

/-- Claim C5 (witness): on the healthy driver `shotC5w` the returned
set starts with the two mandatory entries. -/
theorem take_screenshots_swallows_failures_witness :
    ∃ tl, take_screenshots shotC5w =
      { type := "full_page", data := "png" } ::
        { type := "viewport", data := "png" } :: tl :=
  (take_screenshots_swallows_failures shotC5w).2 3000 "png" "png"
    rfl rfl rfl rfl rfl

/-- `List.asString` of a string's characters is the string itself. -/
theorem asString_toList (s : String) : List.asString s.toList = s := by
  cases s
  rfl

/-- `List.asString` turns list concatenation into string
concatenation. -/
theorem asString_append (a b : List Char) :
    List.asString (a ++ b) = List.asString a ++ List.asString b := rfl

/-- Claim C6: in both request modes, the page text enters the
generation request exactly as its first 4000 characters — longer text
is truncated to the first 4000 characters, text of at most 4000
characters passes through unmodified. -/
theorem generation_text_truncation (url t s : String) :
    (augmentedInput url t s =
      augPre ++ url ++ augMid ++ strSlice t 4000 ++ augMid2 ++ s ++ augPost) ∧
    (standardMessages t s =
      [{ role := "system", content := stdSystemContent },
       { role := "user",
         content := stdUserPre ++ strSlice t 4000 ++ stdUserMid ++ s ++ stdUserPost }]) ∧
    (t.length ≤ 4000 → strSlice t 4000 = t) ∧
    (4000 < t.length →
      (strSlice t 4000).length = 4000 ∧ ∃ rest, t = strSlice t 4000 ++ rest) := by
  refine ⟨rfl, rfl, ?_, ?_⟩
  · intro h
    unfold strSlice
    rw [List.take_of_length_le (by simpa using h), asString_toList]
  · intro h
    constructor
    · show (t.toList.take 4000).length = 4000
      rw [List.length_take]
      exact min_eq_left (le_of_lt (by simpa using h))
    · refine ⟨List.asString (t.toList.drop 4000), ?_⟩
      unfold strSlice
      conv_lhs => rw [← asString_toList t]
      rw [← asString_append, List.take_append_drop]

/-- Claim C6 (witness): a short text passes through unmodified and a
4001-character text is cut to exactly 4000 characters. -/
theorem generation_text_truncation_witness :
    strSlice "hi" 4000 = "hi" ∧ (strSlice longText 4000).length = 4000 := by
  constructor
  · exact (generation_text_truncation "u" "hi" "s").2.2.1 (by decide)
  · refine ((generation_text_truncation "u" longText "s").2.2.2 ?_).1
    show 4000 < longText.length
    have hl : longText.length = 4001 := List.length_replicate 4001 'a'
    omega

/-- Claim C7: the web-search tool configuration carries the
`search_context_size` key exactly when the request's value is one of
`low`, `medium`, `high` (the forwarded value being the request's), and
for the value `invalid` the key is omitted entirely. -/
theorem search_context_size_forwarding (req : WebsiteRequest) :
    ((buildWebSearchTool req).search_context_size.isSome = true ↔
      (req.search_context_size = some "low" ∨ req.search_context_size = some "medium" ∨
       req.search_context_size = some "high")) ∧
    ((buildWebSearchTool
        { req with search_context_size := some "invalid" }).search_context_size = none) ∧
    (∀ s, (buildWebSearchTool req).search_context_size = some s →
      req.search_context_size = some s) := by
  have hscs : ∀ r : WebsiteRequest, (buildWebSearchTool r).search_context_size =
      (if scsAllowed r.search_context_size then r.search_context_size else none) := by
    intro r
    unfold buildWebSearchTool
    by_cases hu : pyTruthyDict r.user_location <;>
      by_cases ha : scsAllowed r.search_context_size <;>
        simp [hu, ha]
  refine ⟨?_, ?_, ?_⟩
  · rw [hscs req]
    by_cases ha : scsAllowed req.search_context_size
    · rw [if_pos ha]
      cases hv : req.search_context_size with
      | none => rw [hv] at ha; simp [scsAllowed] at ha
      | some s =>
        rw [hv] at ha
        simp only [scsAllowed, Bool.or_eq_true, decide_eq_true_eq] at ha
        simp only [Option.isSome_some, true_iff]
        rcases ha with (h | h) | h
        · exact Or.inl (by rw [h])
        · exact Or.inr (Or.inl (by rw [h]))
        · exact Or.inr (Or.inr (by rw [h]))
    · rw [if_neg ha]
      simp only [Option.isSome_none, Bool.false_eq_true, false_iff]
      intro hv
      apply ha
      rcases hv with h | h | h <;> simp [scsAllowed, h]
  · rw [hscs]
    simp [scsAllowed]
  · intro s hs
    rw [hscs req] at hs
    by_cases ha : scsAllowed req.search_context_size
    · rw [if_pos ha] at hs; exact hs
    · rw [if_neg ha] at hs; exact absurd hs (by simp)

/-- Claim C7 (witness): the allowed value `high` is forwarded and the
value `invalid` is dropped. -/
theorem search_context_size_forwarding_witness :
    (buildWebSearchTool reqC7).search_context_size.isSome = true ∧
    (buildWebSearchTool
      { reqC7 with search_context_size := some "invalid" }).search_context_size = none ∧
    reqC7.search_context_size = some "high" := by
  refine ⟨?_, (search_context_size_forwarding reqC7).2.1, ?_⟩
  · exact (search_context_size_forwarding reqC7).1.mpr (by decide)
  · exact (search_context_size_forwarding reqC7).2.2 "high" (by decide)

/-- A left fold that appends per-item citation lists is empty exactly
when the accumulator and every item contribution are. -/
theorem foldl_append_eq_nil (g : ContentItem → List Citation) :
    ∀ (l : List ContentItem) (acc : List Citation),
      l.foldl (fun a c => a ++ g c) acc = [] ↔ acc = [] ∧ ∀ c ∈ l, g c = [] := by
  intro l
  induction l with
  | nil => intro acc; simp
  | cons c cs ih =>
    intro acc
    rw [List.foldl_cons, ih]
    constructor
    · rintro ⟨h1, h2⟩
      rcases List.append_eq_nil.mp h1 with ⟨ha, hc⟩
      exact ⟨ha, by
        intro x hx
        rcases List.mem_cons.mp hx with h | h
        · exact h ▸ hc
        · exact h2 x h⟩
    · rintro ⟨ha, h2⟩
      refine ⟨?_, fun x hx => h2 x (List.mem_cons_of_mem c hx)⟩
      rw [ha, h2 c (List.mem_cons_self c cs)]
      rfl

/-- A content item contributes a citation exactly when one of its
annotations has type `url_citation`. -/
theorem citationsOfContent_ne_nil (c : ContentItem) :
    ¬ citationsOfContent c = [] ↔
      ∃ anns, c.annotations = some anns ∧ ∃ a ∈ anns, a.type = "url_citation" := by
  obtain ⟨oann⟩ := c
  cases oann with
  | none => simp [citationsOfContent]
  | some anns =>
    simp only [citationsOfContent, Option.some.injEq, exists_eq_left']
    rw [List.filterMap_eq_nil_iff]
    simp only [not_forall]
    constructor
    · rintro ⟨a, hmem, hne⟩
      refine ⟨a, hmem, ?_⟩
      by_contra ht
      exact hne (by rw [if_neg ht])
    · rintro ⟨a, hmem, ht⟩
      exact ⟨a, hmem, by rw [if_pos ht]; exact Option.some_ne_none _⟩

/-- The collected citations are non-empty exactly when the response
carries a URL-citation annotation. -/
theorem collectCitations_ne_nil (r : Response) :
    ¬ collectCitations r = [] ↔ hasUrlCitation r := by
  obtain ⟨rout, rmsg⟩ := r
  cases rmsg with
  | none => simp [collectCitations, hasUrlCitation]
  | some m =>
    obtain ⟨mc⟩ := m
    cases mc with
    | none => simp [collectCitations, hasUrlCitation]
    | some contents =>
      simp only [collectCitations, hasUrlCitation, Option.some.injEq,
        exists_eq_left']
      rw [foldl_append_eq_nil]
      simp only [true_and, not_forall]
      constructor
      · rintro ⟨c, hmem, hne⟩
        rcases (citationsOfContent_ne_nil c).mp hne with ⟨anns, hann, a, hamem, ht⟩
        exact ⟨c, hmem, anns, hann, a, hamem, ht⟩
      · rintro ⟨c, hmem, anns, hann, a, hamem, ht⟩
        exact ⟨c, hmem, (citationsOfContent_ne_nil c).mpr ⟨anns, hann, a, hamem, ht⟩⟩

/-- A successful handler response comes from a successful `try`
body. -/
theorem analyze_ok_body (req : WebsiteRequest) (env : AnalyzeEnv)
    (res : AnalysisResult) (h : (analyze_website req env).1 = Except.ok res) :
    analyzeBody req env = Except.ok res := by
  have h1 : mapError (analyzeBody req env) = Except.ok res := h
  cases hb : analyzeBody req env with
  | ok r =>
    rw [hb] at h1
    simp only [mapError] at h1
    injection h1 with he
    rw [he]
  | error e =>
    rw [hb] at h1
    cases e <;> simp [mapError] at h1

/-- Claim C8: a successful `/analyze` response contains the
`citations` field exactly when web search was enabled and the
generation response carried at least one URL-citation annotation. -/
theorem citations_presence_iff (req : WebsiteRequest) (env : AnalyzeEnv)
    (res : AnalysisResult)
    (h : (analyze_website req env).1 = Except.ok res) :
    res.citations.isSome = true ↔
      (pyTruthyBool req.enable_web_search = true ∧
        ∃ r, env.responsesCreate = Except.ok r ∧ hasUrlCitation r) := by
  have hbody := analyze_ok_body req env res h
  obtain ⟨su, na, wb, tc, ee, sd, rc, cc, q, ts⟩ := env
  cases su with
  | error e => simp [analyzeBody] at hbody
  | ok u1 =>
  cases na with
  | error e => simp [analyzeBody] at hbody
  | ok u2 =>
  cases wb with
  | error e => simp [analyzeBody] at hbody
  | ok u3 =>
  cases hews : pyTruthyBool req.enable_web_search with
  | true =>
    cases rc with
    | error e => simp [analyzeBody, hews] at hbody
    | ok r =>
      simp only [analyzeBody, hews] at hbody
      injection hbody with hres
      subst hres
      simp only [hews, true_and]
      by_cases hnil : collectCitations r = []
      · have hcond : ¬ ((true && !(collectCitations r).isEmpty) = true) := by
          simp [hnil]
        rw [if_neg hcond]
        simp only [Option.isSome_none]
        constructor
        · intro hfalse
          exact absurd hfalse (by decide)
        · rintro ⟨r2, hr2, hurl⟩
          injection hr2 with he
          rw [← he] at hurl
          exact absurd hnil ((collectCitations_ne_nil r).mpr hurl)
      · have hcond : (true && !(collectCitations r).isEmpty) = true := by
          cases hcv : collectCitations r with
          | nil => exact absurd hcv hnil
          | cons a l => rfl
        rw [if_pos hcond]
        simp only [Option.isSome_some, eq_self_iff_true, true_iff]
        exact ⟨r, rfl, (collectCitations_ne_nil r).mp hnil⟩
  | false =>
    cases cc with
    | error e => simp [analyzeBody, hews] at hbody
    | ok cr =>
      obtain ⟨choices⟩ := cr
      cases choices with
      | nil => simp [analyzeBody, hews] at hbody
      | cons choice rest =>
        simp only [analyzeBody, hews] at hbody
        injection hbody with hres
        subst hres
        simp [hews]

/-- Claim C8 (witness): the healthy standard-mode run `envC8` succeeds
and its result omits the `citations` key. -/
theorem citations_presence_iff_witness :
    (analyze_website reqC8 envC8).1 = Except.ok resC8 ∧
    resC8.citations.isSome = false := by
  constructor
  · rfl
  · cases hc : resC8.citations.isSome
    · rfl
    · exact absurd ((citations_presence_iff reqC8 envC8 resC8 rfl).mp hc).1 (by decide)

/-- Claim C9 (counterexample): when `setup_selenium` itself raises a
`WebDriverException`, the request exits on the browser-error path with
HTTP 400, yet the session-teardown call is invoked zero times, not
exactly once — the driver was never created. -/
theorem setup_failure_no_teardown :
    (analyze_website reqC9 envC9fail).1 =
      Except.error (400, "Failed to access website: chrome not reachable") ∧
    (analyze_website reqC9 envC9fail).2 = 0 :=
  ⟨rfl, rfl⟩

/-- Claim C9 (amended): errors map to status codes as claimed —
timeout to 408 with the fixed detail, browser error to 400, any other
error to 500 — and the session-teardown call is invoked exactly once
on every exit path on which the session was created, zero times when
`setup_selenium` itself fails, with teardown's own failure suppressed
and never affecting the response. -/
theorem error_mapping_and_teardown (req : WebsiteRequest) (env : AnalyzeEnv) :
    ((analyze_website req env).2 = if okBool env.setup_selenium then 1 else 0) ∧
    (∀ q, (analyze_website req { env with quit := q }).1 = (analyze_website req env).1) ∧
    (analyzeBody req env = Except.error StepErr.timeoutExc →
      (analyze_website req env).1 = Except.error (408, "Timeout while loading website")) ∧
    (∀ m, analyzeBody req env = Except.error (StepErr.webdriverExc m) →
      (analyze_website req env).1 = Except.error (400, "Failed to access website: " ++ m)) ∧
    (∀ m, analyzeBody req env = Except.error (StepErr.otherExc m) →
      (analyze_website req env).1 = Except.error (500, m)) ∧
    (∀ r, analyzeBody req env = Except.ok r →
      (analyze_website req env).1 = Except.ok r) := by
  refine ⟨?_, ?_, ?_, ?_, ?_, ?_⟩
  · show quitCount env = _
    unfold quitCount
    cases env.quit <;> rfl
  · intro q
    cases env
    rfl
  · intro h
    show mapError (analyzeBody req env) = _
    rw [h]
    rfl
  · intro m h
    show mapError (analyzeBody req env) = _
    rw [h]
    rfl
  · intro m h
    show mapError (analyzeBody req env) = _
    rw [h]
    rfl
  · intro r h
    show mapError (analyzeBody req env) = _
    rw [h]
    rfl

/-- Claim C9 (witness): a readiness timeout after session creation
yields HTTP 408 and exactly one teardown call, even though the
teardown itself fails. -/
theorem error_mapping_and_teardown_witness :
    (analyze_website reqC9 envC9).1 =
      Except.error (408, "Timeout while loading website") ∧
    (analyze_website reqC9 envC9).2 = 1 := by
  constructor
  · exact (error_mapping_and_teardown reqC9 envC9).2.2.1 rfl
  · rw [(error_mapping_and_teardown reqC9 envC9).1]
    rfl

/-- Claim C10: whenever a `user_location` object enters the tool
configuration it starts with the extra entry `type = "approximate"`
(so that key always resolves to `approximate`), and a supplied empty
`user_location` mapping, like an absent one, adds no object at
all. -/
theorem user_location_approximate (req : WebsiteRequest) :
    (∀ ld, (buildWebSearchTool req).user_location = some ld →
      ld.lookup "type" = some "approximate" ∧
      ∃ tl, ld = ("type", "approximate") :: tl) ∧
    ((req.user_location = some [] ∨ req.user_location = none) →
      (buildWebSearchTool req).user_location = none) := by
  have hhead : ∀ ul : List (String × String),
      ∃ tl, buildLocationData ul = ("type", "approximate") :: tl := by
    intro ul
    unfold buildLocationData
    cases ul.lookup "country" <;> cases ul.lookup "city" <;>
      cases ul.lookup "region" <;> cases ul.lookup "timezone" <;>
        exact ⟨_, rfl⟩
  have hul : ∀ r : WebsiteRequest, (buildWebSearchTool r).user_location =
      (if pyTruthyDict r.user_location then
        some (buildLocationData (r.user_location.getD [])) else none) := by
    intro r
    unfold buildWebSearchTool
    by_cases hu : pyTruthyDict r.user_location <;>
      by_cases ha : scsAllowed r.search_context_size <;>
        simp [hu, ha]
  constructor
  · intro ld hld
    rw [hul req] at hld
    by_cases hu : pyTruthyDict req.user_location
    · rw [if_pos hu] at hld
      have hld2 : ld = buildLocationData (req.user_location.getD []) :=
        (Option.some_injective _ hld).symm
      rcases hhead (req.user_location.getD []) with ⟨tl, htl⟩
      rw [hld2, htl]
      exact ⟨by rfl, tl, rfl⟩
    · rw [if_neg hu] at hld
      exact absurd hld (by simp)
  · intro h
    rw [hul req]
    rcases h with h | h <;> rw [h] <;> rfl

/-- Claim C10 (witness): a one-field location dictionary yields an
object whose `type` entry is `approximate`, and an empty dictionary
yields no object. -/
theorem user_location_approximate_witness :
    ((buildWebSearchTool reqC10).user_location.getD []).lookup "type" =
      some "approximate" ∧
    (buildWebSearchTool reqC10b).user_location = none := by
  constructor
  · exact ((user_location_approximate reqC10).1
      (buildLocationData [("city", "Toronto")]) rfl).1
  · exact (user_location_approximate reqC10b).2 (Or.inl rfl)

end WebSearchApi
